import Mathlib

/-!
Formal model of the `consultation_agent` repository.

The development embeds the two algorithmic modules of the repository:

* `consultation_engine.py` — the staged consultation conversation
  (`ConsultationEngine`, `ConsultationSession`, `ASSESSMENT_QUESTIONS`);
* `rag_inmemory.py` — the in-memory RAG store (`InMemoryRAG`): similarity
  search, pickle persistence and `add_knowledge`.

Python strings are embedded as `List Char`; the Python string operations the
engine uses (`lower`, `in`, `startswith`, `replace`, `strip`, `int(...)`,
`title`, and the three `re` patterns of `_extract_name`) are defined below,
faithful to CPython semantics on the ASCII inputs the engine handles.
-/

namespace ConsultationAgent

/-- Python strings, embedded as lists of characters. -/
abbrev Str := List Char

/-- Python `str.lower()` (ASCII model). -/
def lowerStr (s : Str) : Str := s.map Char.toLower

/-- Python `needle in hay` substring containment (`"" in s` is `True`). -/
def containsSub (needle : Str) : Str → Bool
  | [] => needle.isEmpty
  | c :: rest => needle.isPrefixOf (c :: rest) || containsSub needle rest

/-- Python whitespace as recognised by `str.strip()` and `\s`. -/
def isPySpace (c : Char) : Bool :=
  c == ' ' || c == '\t' || c == '\n' || c == '\r' || c == '\x0b' || c == '\x0c'

/-- Python `str.strip()`: drop whitespace from both ends. -/
def pyStrip (s : Str) : Str :=
  ((s.dropWhile isPySpace).reverse.dropWhile isPySpace).reverse

/-- Worker for `pyReplace`: `skip` counts characters of a matched occurrence
that remain to be consumed without rescanning (replacement is non-overlapping,
left to right, exactly as Python `str.replace`). -/
def pyReplaceGo (p r : Str) : Nat → Str → Str
  | _, [] => []
  | Nat.succ k, _ :: rest => pyReplaceGo p r k rest
  | 0, c :: rest =>
    if p ≠ [] ∧ p.isPrefixOf (c :: rest) then
      r ++ pyReplaceGo p r (p.length - 1) rest
    else
      c :: pyReplaceGo p r 0 rest

/-- Python `s.replace(p, r)` for a non-empty pattern `p` (the source only ever
replaces the non-empty literals `"age_"`, `"level_"` and `"answer_"`). -/
def pyReplace (p r s : Str) : Str := pyReplaceGo p r 0 s

/-- Numeric value of a digit string (used only after checking all-digits). -/
def digitsVal (s : Str) : Nat :=
  s.foldl (fun acc c => 10 * acc + (c.toNat - '0'.toNat)) 0

/-- Python `int(s)`: optional surrounding whitespace, optional sign, then one
or more ASCII digits; `none` models the `ValueError` raise. -/
def pyInt (s : Str) : Option Int :=
  match pyStrip s with
  | '-' :: ds => if ds ≠ [] ∧ ds.all Char.isDigit then some (-(digitsVal ds : Int)) else none
  | '+' :: ds => if ds ≠ [] ∧ ds.all Char.isDigit then some ((digitsVal ds : Int)) else none
  | ds => if ds ≠ [] ∧ ds.all Char.isDigit then some ((digitsVal ds : Int)) else none

/-- Embeds `_extract_choice_from_text`: `re.search(r'[123]', text)` — the first
character among `1`, `2`, `3`, as an integer. -/
def extractChoiceFromText (s : Str) : Option Int :=
  match s.find? (fun c => c == '1' || c == '2' || c == '3') with
  | some c => some ((c.toNat - '0'.toNat : Nat) : Int)
  | none => none

/-- Regex `\w` word characters (ASCII model). -/
def isWordChar (c : Char) : Bool := c.isAlphanum || c == '_'

/-- Match `\s+(\w+)` at the start of `s` (greedy), returning the capture. -/
def matchSpacesWord (s : Str) : Option Str :=
  if s.takeWhile isPySpace = [] then none
  else
    let w := (s.dropWhile isPySpace).takeWhile isWordChar
    if w = [] then none else some w

/-- Match `\s*(\w+)` at the start of `s` (greedy), returning the capture. -/
def matchOptSpacesWord (s : Str) : Option Str :=
  let w := (s.dropWhile isPySpace).takeWhile isWordChar
  if w = [] then none else some w

/-- Try each literal alternative at the current position (regex alternation
order), continuing with `after` on the remainder; backtracks to the next
alternative when `after` fails. -/
def matchAltsHere (alts : List Str) (after : Str → Option Str) (s : Str) : Option Str :=
  match alts with
  | [] => none
  | a :: rest =>
    if a.isPrefixOf s then
      match after (List.drop a.length s) with
      | some w => some w
      | none => matchAltsHere rest after s
    else matchAltsHere rest after s

/-- Embeds `re.search` over `(?:alt1|alt2|...) ⬝ after`: leftmost position wins. -/
def searchAlts (alts : List Str) (after : Str → Option Str) : Str → Option Str
  | [] => matchAltsHere alts after []
  | c :: rest =>
    match matchAltsHere alts after (c :: rest) with
    | some w => some w
    | none => searchAlts alts after rest

/-- Match `^(\w+)$` against the whole string; `$` also matches just before a
single trailing newline, as in `re`. -/
def matchFullWord (s : Str) : Option Str :=
  let core := if s ≠ [] ∧ s.getLast? == some '\n' then s.dropLast else s
  if core ≠ [] ∧ core.all isWordChar then some core else none

/-- Worker for `pyTitle`; the flag records whether the previous character was
a letter. -/
def pyTitleGo : Bool → Str → Str
  | _, [] => []
  | prevAlpha, c :: rest =>
    (if prevAlpha then c.toLower else c.toUpper) :: pyTitleGo c.isAlpha rest

/-- Python `str.title()`: uppercase every letter that follows a non-letter,
lowercase the other letters. -/
def pyTitle (s : Str) : Str := pyTitleGo false s

/-- The apostrophe character, used by the `"i'm"` alternative of
`_extract_name`. -/
def apostrophe : Char := Char.ofNat 39

/-- Embeds `_extract_name`: the three `re.search` patterns of the source, applied to
the lowered input in order; the capture is returned `.title()`-cased. -/
def extractName (t : Str) : Option Str :=
  let lower := lowerStr t
  match searchAlts ["my name is".data, "i am".data, ['i', apostrophe, 'm'], "call me".data]
      matchSpacesWord lower with
  | some w => some (pyTitle w)
  | none =>
    match searchAlts ["name is".data, "name:".data] matchOptSpacesWord lower with
    | some w => some (pyTitle w)
    | none =>
      match matchFullWord lower with
      | some w => some (pyTitle w)
      | none => none

/-- One entry of `session.assessment_answers`. -/
structure AssessAnswer where
  question : Nat
  choice : Int
  correct : Bool
deriving DecidableEq, Repr

/-- The `session.assessment_results` dict set by `_complete_assessment`. -/
structure AssessResults where
  correct : Nat
  total : Nat
  percentage : Nat
  level : Str
deriving DecidableEq, Repr

/-- The `session.data` dict. The engine only ever reads the keys `name`,
`age_range` and `level`; a key that was never written is `none`. -/
structure SessionData where
  name : Option Str
  age_range : Option Str
  level : Option Str
deriving DecidableEq, Repr

/-- Embeds `ConsultationSession`: per-session mutable state. `assessment_results`
is `none` while the dict is still the initial `{}`. -/
structure Session where
  session_id : Str
  stage : Str
  data : SessionData
  current_question : Nat
  assessment_answers : List AssessAnswer
  assessment_results : Option AssessResults
  assessed_level : Option Str
deriving DecidableEq, Repr

/-- Embeds `ConsultationSession.__init__`. -/
def newSession (sid : Str) : Session :=
  { session_id := sid
    stage := "welcome".data
    data := { name := none, age_range := none, level := none }
    current_question := 0
    assessment_answers := []
    assessment_results := none
    assessed_level := none }

/-- One entry of `ASSESSMENT_QUESTIONS`. -/
structure Question where
  id : Str
  question : Str
  options : List Str
  correct_answer : Int
deriving DecidableEq, Repr

/-- The `ASSESSMENT_QUESTIONS` configuration list. -/
def ASSESSMENT_QUESTIONS : List Question :=
  [ { id := "q1".data
      question := "Choose the correct sentence:".data
      options := [ "He go to school every day".data
                 , "He goes to school every day".data
                 , "He going to school every day".data ]
      correct_answer := 2 }
  , { id := "q2".data
      question := "Select the best response to how are you:".data
      options := [ "I am fine, thank you".data
                 , "Fine is me".data
                 , "Me fine today".data ]
      correct_answer := 1 }
  , { id := "q3".data
      question := "Choose the correct past tense:".data
      options := [ "I eat pizza yesterday".data
                 , "I ate pizza yesterday".data
                 , "I eated pizza yesterday".data ]
      correct_answer := 2 }
  , { id := "q4".data
      question := "Which sentence uses can correctly?".data
      options := [ "I can to swim".data
                 , "I can swim".data
                 , "I can swimming".data ]
      correct_answer := 2 }
  , { id := "q5".data
      question := "Complete: She _____ her homework every night.".data
      options := [ "do".data
                 , "does".data
                 , "doing".data ]
      correct_answer := 2 } ]

/-- A parsed `form_submit` payload, restricted to the keys the engine reads. -/
structure FormData where
  name : Option Str
  age_range : Option Str
  level : Option Str
deriving DecidableEq, Repr

/-- One `handle_message` call: the `action_type` string together with
`user_input`. For `form_submit`, `raw` is the raw string payload and
`parsed` its `json.loads` result (`none` models a payload whose parse or
subsequent dict access raises, which the source catches). -/
inductive Input where
  | text (s : Str)
  | button (s : Str)
  | formSubmit (raw : Str) (parsed : Option FormData)
  | otherAction (action : Str) (s : Str)
deriving DecidableEq, Repr

/-- One entry of the mock `course_catalog`. -/
structure Course where
  id : Str
  name : Str
  duration : Str
  schedule : Str
  description : Str
deriving DecidableEq, Repr

/-- The response payload of `handle_message`. Each constructor corresponds to
one `_create_*` / `_get_*` payload builder of the source and carries exactly
the session-derived data interpolated into that payload; the remaining
payload text, buttons, and the payload's `stage` field are constants of the
constructor. -/
inductive Response where
  | nameForm
  | basicInfo (needsAge needsLevel : Bool) (name : Str)
  | assessmentIntro (name : Str) (level : Str)
  | question (index : Nat) (errorMsg : Option Str)
  | results (correct total percentage : Nat) (level : Str)
  | recommendations (name : Str) (level : Str) (courses : List Course)
  | error (msg : Str)
deriving DecidableEq, Repr

/-- The mock `course_catalog` of `_generate_course_recommendations`,
including the `.get(level, catalog['intermediate'])` default. -/
def courseCatalog (level : Str) : List Course :=
  if level = "beginner".data then
    [ { id := "beg001".data, name := "English Foundations".data
        duration := "8 weeks".data, schedule := "Tue/Thu 4-5pm".data
        description := "Perfect for building basic English skills with fun activities and games.".data }
    , { id := "beg002".data, name := "Speaking Listening Starter".data
        duration := "6 weeks".data, schedule := "Mon/Wed 4-5pm".data
        description := "Focus on conversation skills and pronunciation for beginners.".data } ]
  else if level = "advanced".data then
    [ { id := "adv001".data, name := "Advanced Communication".data
        duration := "12 weeks".data, schedule := "Tue/Thu 6-7pm".data
        description := "Master complex topics and advanced grammar structures.".data } ]
  else
    [ { id := "int001".data, name := "Grammar Conversation".data
        duration := "10 weeks".data, schedule := "Tue/Thu 5-6pm".data
        description := "Strengthen grammar while practicing real-world conversations.".data }
    , { id := "int002".data, name := "Reading Writing Plus".data
        duration := "8 weeks".data, schedule := "Mon/Wed 5-6pm".data
        description := "Improve reading comprehension and writing skills.".data } ]

/-- Embeds `_generate_course_recommendations` (the `age_range` lookup of the source
is bound but never used). -/
def generateCourseRecommendations (s : Session) : List Course :=
  courseCatalog (s.assessed_level.getD (s.data.level.getD "intermediate".data))

/-- Embeds `_create_recommendations_response` (pure: only reads the session). -/
def createRecommendationsResponse (s : Session) : Response :=
  .recommendations (s.data.name.getD "there".data)
    (s.assessed_level.getD (s.data.level.getD "intermediate".data))
    (generateCourseRecommendations s)

/-- Embeds `_complete_assessment`. The source computes
`int((correct_count / total_questions) * 100)` in IEEE-754 doubles; for every
pair reachable at completion (`total = 5`, `correct_count ≤ 5`) the double
computation is exact and coincides with floor division, which is how it is
embedded. -/
def completeAssessment (s : Session) : Session × Response :=
  let correct_count := (s.assessment_answers.filter (fun a => a.correct)).length
  let total := s.assessment_answers.length
  let percentage := if 0 < total then 100 * correct_count / total else 0
  let level :=
    if 80 ≤ percentage then "advanced".data
    else if 60 ≤ percentage then "intermediate".data
    else "beginner".data
  ({ s with assessed_level := some level
            assessment_results := some
              { correct := correct_count, total := total
                percentage := percentage, level := level }
            stage := "recommendations".data },
   .results correct_count total percentage level)

/-- Embeds `_get_assessment_question`: completes the assessment once
`current_question` passes the end of `ASSESSMENT_QUESTIONS`, otherwise
re-presents the current question (with an optional error prompt). -/
def getAssessmentQuestion (s : Session) (errorMsg : Option Str) : Session × Response :=
  if ASSESSMENT_QUESTIONS.length ≤ s.current_question then completeAssessment s
  else (s, .question s.current_question errorMsg)

/-- The state mutation of `_process_assessment_answer`: append the answer
record (with `correct = (choice == question['correct_answer'])`) and advance
`current_question`. -/
def recordAnswer (choice : Int) (q : Question) (s : Session) : Session :=
  { s with assessment_answers := s.assessment_answers ++
             [{ question := s.current_question, choice := choice
                correct := decide (choice = q.correct_answer) }]
           current_question := s.current_question + 1 }

/-- Embeds `_process_assessment_answer`. `none` models the `IndexError` of
`ASSESSMENT_QUESTIONS[session.current_question]` (unreachable in program
runs, where `current_question < 5` whenever the stage is
`assessment_active`). -/
def processAssessmentAnswer (choice : Int) (s : Session) : Option (Session × Response) :=
  match ASSESSMENT_QUESTIONS[s.current_question]? with
  | none => none
  | some q => some (getAssessmentQuestion (recordAnswer choice q s) none)

/-- The error prompt `_handle_assessment_question` passes on invalid input. -/
def answerPrompt : Str := "Please select one of the options above or type 1, 2, or 3.".data

/-- The text path of `_handle_assessment_question`: extract a choice from the
payload, otherwise re-present the question with the error prompt. -/
def assessmentTextAnswer (t : Str) (s : Session) : Option (Session × Response) :=
  match extractChoiceFromText t with
  | some choice => processAssessmentAnswer choice s
  | none => some (getAssessmentQuestion s (some answerPrompt))

/-- Embeds `_handle_assessment_question`. A `button_click` whose payload starts with
`answer_` is parsed with `int(user_input.replace("answer_", ""))`; `none`
models the uncaught `ValueError` when the remainder is not an integer.
Every other input falls through to text extraction on its payload. -/
def handleAssessmentQuestion (inp : Input) (s : Session) : Option (Session × Response) :=
  match inp with
  | .button b =>
    if ("answer_".data).isPrefixOf b then
      match pyInt (pyReplace "answer_".data [] b) with
      | some choice => processAssessmentAnswer choice s
      | none => none
    else assessmentTextAnswer b s
  | .text t => assessmentTextAnswer t s
  | .formSubmit raw _ => assessmentTextAnswer raw s
  | .otherAction _ t => assessmentTextAnswer t s

/-- Embeds `_create_assessment_intro_response` (pure: the payload text depends on
the name and on whether the stated level is `unsure`). -/
def createAssessmentIntroResponse (s : Session) : Response :=
  .assessmentIntro (s.data.name.getD "there".data) (s.data.level.getD "unknown".data)

/-- The `start_assessment` transition of `_handle_assessment_intro`. -/
def startAssessment (s : Session) : Session × Response :=
  getAssessmentQuestion
    { s with stage := "assessment_active".data, current_question := 0 } none

/-- The `skip_assessment` transition of `_handle_assessment_intro`. -/
def skipAssessment (s : Session) : Session × Response :=
  let s2 := { s with stage := "recommendations".data
                     assessed_level := some (s.data.level.getD "intermediate".data) }
  (s2, createRecommendationsResponse s2)

/-- The free-text fallback of `_handle_assessment_intro`: start-words are
checked before skip-words, and `word in input.lower()` is substring
containment. -/
def assessmentIntroFallback (t : Str) (s : Session) : Session × Response :=
  let lower := lowerStr t
  if containsSub "start".data lower || containsSub "begin".data lower ||
     containsSub "yes".data lower || containsSub "ready".data lower then
    startAssessment s
  else if containsSub "skip".data lower || containsSub "no".data lower ||
          containsSub "later".data lower then
    skipAssessment s
  else (s, createAssessmentIntroResponse s)

/-- Embeds `_handle_assessment_intro`: explicit buttons first, then the text
fallback runs on the payload of any other input. -/
def handleAssessmentIntro (inp : Input) (s : Session) : Session × Response :=
  match inp with
  | .button b =>
    if b = "start_assessment".data then startAssessment s
    else if b = "skip_assessment".data then skipAssessment s
    else assessmentIntroFallback b s
  | .text t => assessmentIntroFallback t s
  | .formSubmit raw _ => assessmentIntroFallback raw s
  | .otherAction _ t => assessmentIntroFallback t s

/-- Embeds `_create_basic_info_response`: shows the sections still needed; in the
fallback case (nothing needed) it advances the session to
`assessment_intro`. -/
def createBasicInfoResponse (s : Session) : Session × Response :=
  let name := s.data.name.getD "there".data
  let needsAge := s.data.age_range.isNone
  let needsLevel := s.data.level.isNone
  if needsAge || needsLevel then (s, .basicInfo needsAge needsLevel name)
  else
    let s2 := { s with stage := "assessment_intro".data }
    (s2, createAssessmentIntroResponse s2)

/-- Embeds `dict.update(form_data)` restricted to the keys the engine reads. -/
def updateData (d : SessionData) (f : FormData) : SessionData :=
  { name := match f.name with | some v => some v | none => d.name
    age_range := match f.age_range with | some v => some v | none => d.age_range
    level := match f.level with | some v => some v | none => d.level }

/-- The `button_click` branch of `_handle_basic_info`: an `age_` button
records `user_input.replace("age_", "")` under `age_range`, otherwise a
`level_` button records the level; other buttons change nothing. -/
def basicInfoButtonData (d : SessionData) (b : Str) : SessionData :=
  if ("age_".data).isPrefixOf b then
    { d with age_range := some (pyReplace "age_".data [] b) }
  else if ("level_".data).isPrefixOf b then
    { d with level := some (pyReplace "level_".data [] b) }
  else d

/-- Embeds `_handle_basic_info`. A parsed `form_submit` always advances to
`assessment_intro`; a failed parse returns the error payload without
touching the session; `age_`/`level_` buttons record the suffix
(`str.replace` of the prefix) and advance once both keys are present. -/
def handleBasicInfo (inp : Input) (s : Session) : Session × Response :=
  match inp with
  | .formSubmit _ (some f) =>
    let s2 := { s with data := updateData s.data f, stage := "assessment_intro".data }
    (s2, createAssessmentIntroResponse s2)
  | .formSubmit _ none => (s, .error "Invalid form data".data)
  | .button b =>
    let d2 := basicInfoButtonData s.data b
    if d2.age_range.isSome && d2.level.isSome then
      let s3 := { s with data := d2, stage := "assessment_intro".data }
      (s3, createAssessmentIntroResponse s3)
    else createBasicInfoResponse { s with data := d2 }
  | _ => createBasicInfoResponse s

/-- Embeds `_handle_welcome`: a parsed form with a non-blank `name`, or a text from
which `_extract_name` extracts a name, advances to `basic_info`; everything
else shows the name form again. -/
def handleWelcome (inp : Input) (s : Session) : Session × Response :=
  match inp with
  | .formSubmit _ (some d) =>
    match d.name with
    | some n =>
      if pyStrip n ≠ [] then
        createBasicInfoResponse
          { s with data := { s.data with name := some (pyStrip n) }
                   stage := "basic_info".data }
      else (s, .nameForm)
    | none => (s, .nameForm)
  | .text t =>
    match extractName t with
    | some n =>
        createBasicInfoResponse
          { s with data := { s.data with name := some n }
                   stage := "basic_info".data }
    | none => (s, .nameForm)
  | _ => (s, .nameForm)

/-- Embeds `_handle_recommendations`: ignores the input and re-creates the
recommendations payload. -/
def handleRecommendations (_inp : Input) (s : Session) : Session × Response :=
  (s, createRecommendationsResponse s)

/-- Embeds `ConsultationEngine.handle_message` restricted to one session: the
stage dispatch. `none` models an uncaught Python exception. -/
def handleMessage (inp : Input) (s : Session) : Option (Session × Response) :=
  if s.stage = "welcome".data then some (handleWelcome inp s)
  else if s.stage = "basic_info".data then some (handleBasicInfo inp s)
  else if s.stage = "assessment_intro".data then some (handleAssessmentIntro inp s)
  else if s.stage = "assessment_active".data then handleAssessmentQuestion inp s
  else if s.stage = "recommendations".data then some (handleRecommendations inp s)
  else some (s, .error "Invalid session state".data)

/-- Lookup in the `self.sessions` dict (insertion-ordered pairs with unique
keys, as a Python dict). -/
def lookupSession : List (Str × Session) → Str → Option Session
  | [], _ => none
  | (k, v) :: rest, sid => if k = sid then some v else lookupSession rest sid

/-- Write-back of an in-place session mutation into the `self.sessions`
dict. -/
def setSession : List (Str × Session) → Str → Session → List (Str × Session)
  | [], _, _ => []
  | (k, v) :: rest, sid, s =>
    if k = sid then (k, s) :: rest else (k, v) :: setSession rest sid s

/-- Embeds `ConsultationEngine.sessions`: the in-process session map. -/
structure Engine where
  sessions : List (Str × Session)
deriving DecidableEq, Repr

/-- Embeds `ConsultationEngine.get_or_create_session`. -/
def getOrCreateSession (e : Engine) (sid : Str) : Engine × Session :=
  match lookupSession e.sessions sid with
  | some s => (e, s)
  | none => (⟨e.sessions ++ [(sid, newSession sid)]⟩, newSession sid)

/-- Embeds `ConsultationEngine.handle_message` on the full engine state. On an
uncaught exception (`none` response) the freshly created session, if any,
remains in the map, as in the source. -/
def engineHandleMessage (e : Engine) (sid : Str) (inp : Input) : Engine × Option Response :=
  let p := getOrCreateSession e sid
  match handleMessage inp p.2 with
  | some (s2, r) => (⟨setSession p.1.sessions sid s2⟩, some r)
  | none => (p.1, none)

/-- Embedding vectors (the OpenAI embedding vectors of `get_embeddings`,
with exact rationals standing for the floating-point components). -/
abbrev Emb := List ℚ

/-- A metadata dict with string values, as used by the knowledge base. -/
abbrev Metadata := List (Str × Str)

/-- One knowledge-base item `{id, content, metadata, embedding, timestamp}`. -/
structure KBItem where
  id : Str
  content : Str
  metadata : Metadata
  embedding : Emb
  timestamp : Str
deriving DecidableEq, Repr

/-- A filter value of `search_knowledge_base`: a scalar compared with `!=`,
or a list checked with `not in`. -/
inductive FilterVal where
  | single (v : Str)
  | list (vs : List Str)
deriving DecidableEq, Repr

/-- Metadata dict lookup. -/
def lookupMeta : Metadata → Str → Option Str
  | [], _ => none
  | (k, v) :: rest, key => if k = key then some v else lookupMeta rest key

/-- The per-item filter loop of `search_knowledge_base`: every filter key
must be present in the item's metadata and its value must match. -/
def matchesFilters (filters : List (Str × FilterVal)) (item : KBItem) : Bool :=
  filters.all (fun kv =>
    match lookupMeta item.metadata kv.1 with
    | none => false
    | some mv =>
      match kv.2 with
      | .single v => mv = v
      | .list vs => vs.contains mv)

/-- The metadata filtering step (`filtered_items`). -/
def applyFilters (kb : List KBItem) (filters : Option (List (Str × FilterVal))) : List KBItem :=
  match filters with
  | none => kb
  | some fs => kb.filter (matchesFilters fs)

/-- One search result `{content, metadata, relevance, id}`. -/
structure SearchResult where
  content : Str
  metadata : Metadata
  relevance : ℚ
  id : Str
deriving DecidableEq, Repr

/-- Embeds `InMemoryRAG.search_knowledge_base`. `sim` abstracts
`sklearn cosine_similarity` of the query embedding against an item
embedding (a floating-point computation external to this model); the linear
scan, the stable descending sort (`list.sort(key=relevance, reverse=True)`)
and the `[:limit]` truncation are embedded exactly. -/
def searchKnowledgeBase (sim : Emb → Emb → ℚ) (kb : List KBItem) (queryEmbedding : Emb)
    (limit : Nat) (filters : Option (List (Str × FilterVal))) : List SearchResult :=
  if kb = [] then []
  else
    let filtered := applyFilters kb filters
    if filtered = [] then []
    else
      let results := filtered.map (fun it =>
        { content := it.content, metadata := it.metadata
          relevance := sim queryEmbedding it.embedding, id := it.id })
      (results.mergeSort (fun a b => decide (b.relevance ≤ a.relevance))).take limit

/-- The on-disk state of one pickle cache file: missing, present but failing
to load, or holding a pickled value. -/
inductive FileData (α : Type) where
  | absent
  | unreadable
  | stored (v : α)
deriving DecidableEq, Repr

/-- One `context_base` entry (a dict, held abstractly as key-value pairs). -/
abbrev CtxItem := List (Str × Str)

/-- The two persistence files of `InMemoryRAG`. -/
structure RagFiles where
  knowledgeFile : FileData (List KBItem)
  contextFile : FileData (List CtxItem)
deriving DecidableEq, Repr

/-- The in-memory lists of `InMemoryRAG`. -/
structure RagState where
  knowledge_base : List KBItem
  context_base : List CtxItem
deriving DecidableEq, Repr

/-- Embeds `InMemoryRAG.load_persisted_data`: a missing file is skipped (the list
keeps its current value), a file whose load raises resets the list to `[]`,
and a loadable file replaces the list with its pickled contents. -/
def loadPersistedData (files : RagFiles) (st : RagState) : RagState :=
  { knowledge_base :=
      match files.knowledgeFile with
      | .absent => st.knowledge_base
      | .unreadable => []
      | .stored v => v
    context_base :=
      match files.contextFile with
      | .absent => st.context_base
      | .unreadable => []
      | .stored v => v }

/-- Embeds `InMemoryRAG.save_persisted_data` (a write failure is caught and only
printed; the successful write is modeled). -/
def savePersistedData (st : RagState) : RagFiles :=
  { knowledgeFile := .stored st.knowledge_base
    contextFile := .stored st.context_base }

/-- Outcome of `add_knowledge`: the `ValueError` raise (which leaves the
state untouched, carried for reference) or the updated state, the files
written by `save_persisted_data`, and the returned `doc_id`. -/
inductive AddResult where
  | valueError (st : RagState)
  | ok (st : RagState) (files : RagFiles) (doc_id : Str)
deriving DecidableEq, Repr

/-- Embeds `InMemoryRAG.add_knowledge`. `doc_id` stands for the fresh
`str(uuid.uuid4())`, `embedding` for the `get_embeddings` API result and
`timestamp` for `datetime.now().isoformat()`; `metadata.getD []` embeds
`metadata or {}` (an explicit empty dict also yields `{}`). -/
def addKnowledge (st : RagState) (content : Str) (metadata : Option Metadata)
    (doc_id : Str) (embedding : Emb) (timestamp : Str) : AddResult :=
  if content = [] ∨ pyStrip content = [] then .valueError st
  else
    let item : KBItem :=
      { id := doc_id, content := content, metadata := metadata.getD []
        embedding := embedding, timestamp := timestamp }
    let st2 := { st with knowledge_base := st.knowledge_base ++ [item] }
    .ok st2 (savePersistedData st2) doc_id

/-- The seven stage names of the specification's state machine, in order. -/
def validStages : List Str :=
  [ "welcome".data, "basic_info".data, "assessment_intro".data
  , "assessment_active".data, "assessment_complete".data
  , "recommendations".data, "error".data ]

/-- Position of a stage name along the specification's order (unknown names
map past the end). -/
def stageIndex (st : Str) : Nat :=
  if st = "welcome".data then 0
  else if st = "basic_info".data then 1
  else if st = "assessment_intro".data then 2
  else if st = "assessment_active".data then 3
  else if st = "assessment_complete".data then 4
  else if st = "recommendations".data then 5
  else if st = "error".data then 6
  else 7

/-- Sessions reachable from a fresh session by `handle_message` calls. -/
inductive Reachable : Session → Prop where
  | init (sid : Str) : Reachable (newSession sid)
  | step {s s2 : Session} {inp : Input} {r : Response} (h : Reachable s)
      (hs : handleMessage inp s = some (s2, r)) : Reachable s2

/-- Well-formedness of the recorded answers: the answer at position `i` was
recorded for question `i`, and its `correct` flag compares its choice with
that question's `correct_answer`. -/
def AnswersOK (l : List AssessAnswer) : Prop :=
  ∀ i (hi : i < l.length),
    l[i].question = i ∧
    ∃ hq : i < ASSESSMENT_QUESTIONS.length,
      l[i].correct = decide (l[i].choice = ASSESSMENT_QUESTIONS[i].correct_answer)

/-- The session invariant maintained by `handle_message`. -/
structure Inv (s : Session) : Prop where
  stage_mem : s.stage = "welcome".data ∨ s.stage = "basic_info".data ∨
    s.stage = "assessment_intro".data ∨ s.stage = "assessment_active".data ∨
    s.stage = "recommendations".data
  len_eq : s.assessment_answers.length = s.current_question
  cq_le : s.current_question ≤ ASSESSMENT_QUESTIONS.length
  early : (s.stage = "welcome".data ∨ s.stage = "basic_info".data ∨
      s.stage = "assessment_intro".data) →
    s.current_question = 0 ∧ s.assessment_answers = []
  active_lt : s.stage = "assessment_active".data →
    s.current_question < ASSESSMENT_QUESTIONS.length
  results_none : s.stage ≠ "recommendations".data → s.assessment_results = none
  answers_ok : AnswersOK s.assessment_answers

lemma answersOK_nil : AnswersOK [] := by
  intro i hi
  simp at hi

lemma answersOK_append (l : List AssessAnswer) (choice : Int) (q : Question)
    (hq : ASSESSMENT_QUESTIONS[l.length]? = some q) (hok : AnswersOK l) :
    AnswersOK (l ++ [{ question := l.length, choice := choice
                       correct := decide (choice = q.correct_answer) }]) := by
  have hlt : l.length < ASSESSMENT_QUESTIONS.length := by
    by_contra hge
    rw [List.getElem?_eq_none (by omega)] at hq
    exact Option.noConfusion hq
  intro i hi
  rw [List.length_append] at hi
  simp only [List.length_cons, List.length_nil] at hi
  by_cases hil : i < l.length
  · rw [List.getElem_append_left hil]
    exact hok i hil
  · have hieq : i = l.length := by omega
    subst hieq
    rw [List.getElem_append_right (Nat.le_refl _)]
    simp only [Nat.sub_self, List.getElem_cons_zero]
    refine ⟨by simp, hlt, ?_⟩
    have : ASSESSMENT_QUESTIONS[l.length]? = some (ASSESSMENT_QUESTIONS[l.length]) :=
      List.getElem?_eq_getElem hlt
    rw [this] at hq
    rw [Option.some.injEq] at hq
    rw [hq]

lemma inv_newSession (sid : Str) : Inv (newSession sid) :=
  { stage_mem := Or.inl rfl
    len_eq := rfl
    cq_le := Nat.zero_le _
    early := fun _ => ⟨rfl, rfl⟩
    active_lt := fun h =>
      absurd (show ("welcome".data : Str) = "assessment_active".data from h) (by decide)
    results_none := fun _ => rfl
    answers_ok := answersOK_nil }

lemma inv_update_data {s : Session} (h : Inv s) (d : SessionData) :
    Inv { s with data := d } :=
  { stage_mem := h.stage_mem
    len_eq := h.len_eq
    cq_le := h.cq_le
    early := h.early
    active_lt := h.active_lt
    results_none := h.results_none
    answers_ok := h.answers_ok }

lemma inv_data_stage {s : Session} (hcq : s.current_question = 0)
    (hans : s.assessment_answers = []) (hres : s.assessment_results = none)
    (d : SessionData) (st : Str)
    (hst : st = "basic_info".data ∨ st = "assessment_intro".data) :
    Inv { s with data := d, stage := st } :=
  { stage_mem := by rcases hst with hst | hst <;> rw [hst] <;> simp
    len_eq := by rw [hans, hcq]; rfl
    cq_le := by rw [hcq]; exact Nat.zero_le _
    early := fun _ => ⟨hcq, hans⟩
    active_lt := by
      intro habs
      have h2 : st = "assessment_active".data := habs
      rcases hst with hst | hst <;> rw [hst] at h2 <;> exact absurd h2 (by decide)
    results_none := fun _ => hres
    answers_ok := by
      show AnswersOK s.assessment_answers
      rw [hans]; exact answersOK_nil }

lemma inv_rec (s : Session) (hlen : s.assessment_answers.length = s.current_question)
    (hle : s.current_question ≤ ASSESSMENT_QUESTIONS.length)
    (hok : AnswersOK s.assessment_answers) (lvl : Option Str) (res : Option AssessResults) :
    Inv { s with stage := "recommendations".data, assessed_level := lvl
                 assessment_results := res } :=
  { stage_mem := Or.inr (Or.inr (Or.inr (Or.inr rfl)))
    len_eq := hlen
    cq_le := hle
    early := by
      intro habs
      rcases habs with h | h | h
      · exact absurd (show ("recommendations".data : Str) = "welcome".data from h) (by decide)
      · exact absurd (show ("recommendations".data : Str) = "basic_info".data from h) (by decide)
      · exact absurd (show ("recommendations".data : Str) = "assessment_intro".data from h)
          (by decide)
    active_lt := fun habs =>
      absurd (show ("recommendations".data : Str) = "assessment_active".data from habs)
        (by decide)
    results_none := fun hne => absurd rfl hne
    answers_ok := hok }

lemma inv_start {s : Session} (hans : s.assessment_answers = [])
    (hres : s.assessment_results = none) :
    Inv { s with stage := "assessment_active".data, current_question := 0 } :=
  { stage_mem := Or.inr (Or.inr (Or.inr (Or.inl rfl)))
    len_eq := by rw [hans]; rfl
    cq_le := Nat.zero_le _
    early := by
      intro habs
      rcases habs with h | h | h
      · exact absurd (show ("assessment_active".data : Str) = "welcome".data from h) (by decide)
      · exact absurd (show ("assessment_active".data : Str) = "basic_info".data from h)
          (by decide)
      · exact absurd (show ("assessment_active".data : Str) = "assessment_intro".data from h)
          (by decide)
    active_lt := fun _ =>
      show 0 < ASSESSMENT_QUESTIONS.length by decide
    results_none := fun _ => hres
    answers_ok := by
      show AnswersOK s.assessment_answers
      rw [hans]; exact answersOK_nil }

lemma handleMessage_stage_welcome (inp : Input) (s : Session)
    (h : s.stage = "welcome".data) :
    handleMessage inp s = some (handleWelcome inp s) := by
  unfold handleMessage
  simp only [h]
  rfl

lemma handleMessage_stage_basic (inp : Input) (s : Session)
    (h : s.stage = "basic_info".data) :
    handleMessage inp s = some (handleBasicInfo inp s) := by
  unfold handleMessage
  simp only [h]
  rfl

lemma handleMessage_stage_intro (inp : Input) (s : Session)
    (h : s.stage = "assessment_intro".data) :
    handleMessage inp s = some (handleAssessmentIntro inp s) := by
  unfold handleMessage
  simp only [h]
  rfl

lemma handleMessage_stage_active (inp : Input) (s : Session)
    (h : s.stage = "assessment_active".data) :
    handleMessage inp s = handleAssessmentQuestion inp s := by
  unfold handleMessage
  simp only [h]
  rfl

lemma handleMessage_stage_rec (inp : Input) (s : Session)
    (h : s.stage = "recommendations".data) :
    handleMessage inp s = some (s, createRecommendationsResponse s) := by
  unfold handleMessage
  simp only [h]
  rfl

lemma handleMessage_stage_error (inp : Input) (s : Session)
    (h : s.stage = "error".data) :
    handleMessage inp s = some (s, .error "Invalid session state".data) := by
  unfold handleMessage
  simp only [h]
  rfl

lemma inv_createBasicInfo {u : Session} (h : Inv u) (hcq : u.current_question = 0)
    (hans : u.assessment_answers = []) (hres : u.assessment_results = none) :
    Inv (createBasicInfoResponse u).1 ∧
      ((createBasicInfoResponse u).1.stage = u.stage ∨
       (createBasicInfoResponse u).1.stage = "assessment_intro".data) := by
  unfold createBasicInfoResponse
  dsimp only
  split
  · exact ⟨h, Or.inl rfl⟩
  · exact ⟨inv_data_stage hcq hans hres u.data _ (Or.inr rfl), Or.inr rfl⟩

lemma inv_handleWelcome (inp : Input) {s : Session} (h : Inv s)
    (hst : s.stage = "welcome".data) :
    Inv (handleWelcome inp s).1 ∧
      stageIndex s.stage ≤ stageIndex (handleWelcome inp s).1.stage := by
  have ⟨hcq, hans⟩ := h.early (Or.inl hst)
  have hres := h.results_none (by rw [hst]; decide)
  have hidx : stageIndex s.stage = 0 := by rw [hst]; decide
  rw [hidx]
  refine ⟨?_, Nat.zero_le _⟩
  unfold handleWelcome
  cases inp with
  | text t =>
    dsimp only
    cases extractName t with
    | none => exact h
    | some n =>
      exact (inv_createBasicInfo
        (inv_data_stage hcq hans hres { s.data with name := some n } _ (Or.inl rfl))
        hcq hans hres).1
  | button b => exact h
  | otherAction a t => exact h
  | formSubmit raw parsed =>
    dsimp only
    cases parsed with
    | none => exact h
    | some d =>
      dsimp only
      cases d.name with
      | none => exact h
      | some n =>
        dsimp only
        split
        · exact (inv_createBasicInfo
            (inv_data_stage hcq hans hres { s.data with name := some (pyStrip n) } _
              (Or.inl rfl)) hcq hans hres).1
        · exact h

lemma inv_handleBasicInfo (inp : Input) {s : Session} (h : Inv s)
    (hst : s.stage = "basic_info".data) :
    Inv (handleBasicInfo inp s).1 ∧
      stageIndex s.stage ≤ stageIndex (handleBasicInfo inp s).1.stage := by
  have ⟨hcq, hans⟩ := h.early (Or.inr (Or.inl hst))
  have hres := h.results_none (by rw [hst]; decide)
  have hidx : stageIndex s.stage = 1 := by rw [hst]; decide
  rw [hidx]
  have hfall : Inv (createBasicInfoResponse s).1 ∧
      1 ≤ stageIndex (createBasicInfoResponse s).1.stage := by
    obtain ⟨h1, h2⟩ := inv_createBasicInfo h hcq hans hres
    refine ⟨h1, ?_⟩
    rcases h2 with h2 | h2 <;> rw [h2]
    · rw [hst]; decide
    · decide
  unfold handleBasicInfo
  cases inp with
  | text t => exact hfall
  | otherAction a t => exact hfall
  | formSubmit raw parsed =>
    cases parsed with
    | none =>
      dsimp only
      exact ⟨h, by rw [hst]; decide⟩
    | some f =>
      dsimp only
      refine ⟨inv_data_stage hcq hans hres (updateData s.data f) _ (Or.inr rfl), by decide⟩
  | button b =>
    dsimp only
    split
    · dsimp only
      exact ⟨inv_data_stage hcq hans hres _ _ (Or.inr rfl), by decide⟩
    · obtain ⟨h1, h2⟩ :=
        inv_createBasicInfo (inv_update_data h (basicInfoButtonData s.data b)) hcq hans hres
      refine ⟨h1, ?_⟩
      rcases h2 with h2 | h2 <;> rw [h2]
      · rw [hst]; decide
      · decide

lemma startAssessment_eq (s : Session) :
    startAssessment s =
      ({ s with stage := "assessment_active".data, current_question := 0 },
       .question 0 none) := by
  unfold startAssessment getAssessmentQuestion
  rw [if_neg (show ¬(ASSESSMENT_QUESTIONS.length ≤ 0) from by decide)]

lemma inv_handleIntro (inp : Input) {s : Session} (h : Inv s)
    (hst : s.stage = "assessment_intro".data) :
    Inv (handleAssessmentIntro inp s).1 ∧
      stageIndex s.stage ≤ stageIndex (handleAssessmentIntro inp s).1.stage := by
  have ⟨hcq, hans⟩ := h.early (Or.inr (Or.inr hst))
  have hres := h.results_none (by rw [hst]; decide)
  have hidx : stageIndex s.stage = 2 := by rw [hst]; decide
  rw [hidx]
  have hstart : Inv (startAssessment s).1 ∧ 2 ≤ stageIndex (startAssessment s).1.stage := by
    rw [startAssessment_eq]
    exact ⟨inv_start hans hres,
      show 2 ≤ stageIndex "assessment_active".data from by decide⟩
  have hskip : Inv (skipAssessment s).1 ∧ 2 ≤ stageIndex (skipAssessment s).1.stage := by
    unfold skipAssessment
    dsimp only
    exact ⟨inv_rec s h.len_eq h.cq_le h.answers_ok _ s.assessment_results, by decide⟩
  have hfall : ∀ t, Inv (assessmentIntroFallback t s).1 ∧
      2 ≤ stageIndex (assessmentIntroFallback t s).1.stage := by
    intro t
    unfold assessmentIntroFallback
    dsimp only
    split
    · exact hstart
    · split
      · exact hskip
      · exact ⟨h, by rw [hst]; decide⟩
  unfold handleAssessmentIntro
  cases inp with
  | text t => exact hfall t
  | formSubmit raw parsed => exact hfall raw
  | otherAction a t => exact hfall t
  | button b =>
    dsimp only
    split
    · exact hstart
    · split
      · exact hskip
      · exact hfall b

lemma processAnswer_spec (choice : Int) {s : Session} (h : Inv s)
    (hst : s.stage = "assessment_active".data) :
    ∃ s2 r, processAssessmentAnswer choice s = some (s2, r) ∧
      Inv s2 ∧
      s2.current_question = s.current_question + 1 ∧
      (∃ a, s2.assessment_answers = s.assessment_answers ++ [a]) ∧
      (s2.stage = "assessment_active".data ∨ s2.stage = "recommendations".data) ∧
      ((s2.stage = "recommendations".data ∧ s2.assessment_results.isSome) ↔
        s2.current_question = ASSESSMENT_QUESTIONS.length) := by
  have hlt := h.active_lt hst
  have hres := h.results_none (by rw [hst]; decide)
  have hq : ASSESSMENT_QUESTIONS[s.current_question]? =
      some (ASSESSMENT_QUESTIONS[s.current_question]) := List.getElem?_eq_getElem hlt
  have hlen3 : (recordAnswer choice (ASSESSMENT_QUESTIONS[s.current_question])
      s).assessment_answers.length = s.current_question + 1 := by
    show (s.assessment_answers ++ [_]).length = s.current_question + 1
    rw [List.length_append, h.len_eq]
    rfl
  have hok3 : AnswersOK (recordAnswer choice (ASSESSMENT_QUESTIONS[s.current_question])
      s).assessment_answers := by
    have hq2 : ASSESSMENT_QUESTIONS[s.assessment_answers.length]? =
        some (ASSESSMENT_QUESTIONS[s.current_question]) := by rw [h.len_eq]; exact hq
    have hap := answersOK_append s.assessment_answers choice
      (ASSESSMENT_QUESTIONS[s.current_question]) hq2 h.answers_ok
    rw [h.len_eq] at hap
    exact hap
  unfold processAssessmentAnswer
  rw [hq]
  dsimp only
  unfold getAssessmentQuestion
  by_cases hdone : ASSESSMENT_QUESTIONS.length ≤ s.current_question + 1
  · rw [if_pos (show ASSESSMENT_QUESTIONS.length ≤
      (recordAnswer choice (ASSESSMENT_QUESTIONS[s.current_question]) s).current_question
      from hdone)]
    refine ⟨(completeAssessment
        (recordAnswer choice (ASSESSMENT_QUESTIONS[s.current_question]) s)).1,
      (completeAssessment
        (recordAnswer choice (ASSESSMENT_QUESTIONS[s.current_question]) s)).2,
      rfl, ?_, rfl, ⟨_, rfl⟩, Or.inr rfl, ?_⟩
    · exact inv_rec _ hlen3
        (by show s.current_question + 1 ≤ ASSESSMENT_QUESTIONS.length; omega) hok3 _ _
    · refine ⟨fun _ => ?_, fun _ => ⟨rfl, rfl⟩⟩
      show s.current_question + 1 = ASSESSMENT_QUESTIONS.length
      omega
  · rw [if_neg (show ¬(ASSESSMENT_QUESTIONS.length ≤
      (recordAnswer choice (ASSESSMENT_QUESTIONS[s.current_question]) s).current_question)
      from hdone)]
    refine ⟨recordAnswer choice (ASSESSMENT_QUESTIONS[s.current_question]) s, _,
      rfl, ?_, rfl, ⟨_, rfl⟩, Or.inl hst, ?_⟩
    · exact
        { stage_mem := h.stage_mem
          len_eq := hlen3
          cq_le := by
            show s.current_question + 1 ≤ ASSESSMENT_QUESTIONS.length
            omega
          early := by
            intro habs
            rcases habs with habs | habs | habs
            · have h2 : s.stage = "welcome".data := habs
              rw [hst] at h2
              exact absurd h2 (by decide)
            · have h2 : s.stage = "basic_info".data := habs
              rw [hst] at h2
              exact absurd h2 (by decide)
            · have h2 : s.stage = "assessment_intro".data := habs
              rw [hst] at h2
              exact absurd h2 (by decide)
          active_lt := fun _ => by
            show s.current_question + 1 < ASSESSMENT_QUESTIONS.length
            omega
          results_none := fun _ => hres
          answers_ok := hok3 }
    · constructor
      · intro hp
        have h2 : s.stage = "recommendations".data := hp.1
        rw [hst] at h2
        exact absurd h2 (by decide)
      · intro hc
        have h2 : s.current_question + 1 = ASSESSMENT_QUESTIONS.length := hc
        exact absurd h2 (by omega)

lemma inv_handleActive (inp : Input) {s s2 : Session} {r : Response} (h : Inv s)
    (hst : s.stage = "assessment_active".data)
    (hs : handleAssessmentQuestion inp s = some (s2, r)) :
    Inv s2 ∧ stageIndex s.stage ≤ stageIndex s2.stage := by
  have hidx : stageIndex s.stage = 3 := by rw [hst]; decide
  rw [hidx]
  have hproc : ∀ c, processAssessmentAnswer c s = some (s2, r) →
      Inv s2 ∧ 3 ≤ stageIndex s2.stage := by
    intro c hc
    obtain ⟨s2x, rx, heq, hinv, hcq2, hans2, hstage2, hiff2⟩ := processAnswer_spec c h hst
    rw [heq] at hc
    injection hc with hpair
    injection hpair with h1 h2
    subst h1
    refine ⟨hinv, ?_⟩
    rcases hstage2 with h2 | h2 <;> rw [h2] <;> decide
  have htext : ∀ t, assessmentTextAnswer t s = some (s2, r) →
      Inv s2 ∧ 3 ≤ stageIndex s2.stage := by
    intro t ht
    unfold assessmentTextAnswer at ht
    cases hX : extractChoiceFromText t with
    | some c =>
      rw [hX] at ht
      exact hproc c ht
    | none =>
      rw [hX] at ht
      dsimp only at ht
      unfold getAssessmentQuestion at ht
      rw [if_neg (show ¬(ASSESSMENT_QUESTIONS.length ≤ s.current_question) from by
        have := h.active_lt hst
        omega)] at ht
      injection ht with hpair
      injection hpair with h1 h2
      subst h1
      exact ⟨h, by rw [hst]; decide⟩
  unfold handleAssessmentQuestion at hs
  cases inp with
  | text t => exact htext t hs
  | formSubmit raw parsed => exact htext raw hs
  | otherAction a t => exact htext t hs
  | button b =>
    dsimp only at hs
    by_cases hpre : ("age_".data).isPrefixOf b = true
    all_goals by_cases hpre2 : ("answer_".data).isPrefixOf b = true
    all_goals first
    | (rw [if_pos hpre2] at hs
       cases hparse : pyInt (pyReplace "answer_".data [] b) with
       | none =>
         rw [hparse] at hs
         exact Option.noConfusion hs
       | some c =>
         rw [hparse] at hs
         exact hproc c hs)
    | (rw [if_neg hpre2] at hs
       exact htext b hs)

lemma handleMessage_stage_other (inp : Input) (s : Session)
    (h1 : ¬s.stage = "welcome".data) (h2 : ¬s.stage = "basic_info".data)
    (h3 : ¬s.stage = "assessment_intro".data)
    (h4 : ¬s.stage = "assessment_active".data)
    (h5 : ¬s.stage = "recommendations".data) :
    handleMessage inp s = some (s, .error "Invalid session state".data) := by
  unfold handleMessage
  rw [if_neg h1, if_neg h2, if_neg h3, if_neg h4, if_neg h5]

lemma inv_step {inp : Input} {s s2 : Session} {r : Response} (h : Inv s)
    (hs : handleMessage inp s = some (s2, r)) :
    Inv s2 ∧ stageIndex s.stage ≤ stageIndex s2.stage := by
  by_cases h1 : s.stage = "welcome".data
  · rw [handleMessage_stage_welcome inp s h1] at hs
    injection hs with hp
    have hw := inv_handleWelcome inp h h1
    rw [hp] at hw
    exact hw
  by_cases h2 : s.stage = "basic_info".data
  · rw [handleMessage_stage_basic inp s h2] at hs
    injection hs with hp
    have hw := inv_handleBasicInfo inp h h2
    rw [hp] at hw
    exact hw
  by_cases h3 : s.stage = "assessment_intro".data
  · rw [handleMessage_stage_intro inp s h3] at hs
    injection hs with hp
    have hw := inv_handleIntro inp h h3
    rw [hp] at hw
    exact hw
  by_cases h4 : s.stage = "assessment_active".data
  · rw [handleMessage_stage_active inp s h4] at hs
    exact inv_handleActive inp h h4 hs
  by_cases h5 : s.stage = "recommendations".data
  · rw [handleMessage_stage_rec inp s h5] at hs
    injection hs with hp
    injection hp with hp1 hp2
    subst hp1
    exact ⟨h, Nat.le_refl _⟩
  · rw [handleMessage_stage_other inp s h1 h2 h3 h4 h5] at hs
    injection hs with hp
    injection hp with hp1 hp2
    subst hp1
    exact ⟨h, Nat.le_refl _⟩

lemma reachable_inv {s : Session} (h : Reachable s) : Inv s := by
  induction h with
  | init sid => exact inv_newSession sid
  | step _ hs ih => exact (inv_step ih hs).1

lemma lookupSession_append_ne (l : List (Str × Session)) (k sid : Str) (v : Session)
    (hne : k ≠ sid) : lookupSession (l ++ [(k, v)]) sid = lookupSession l sid := by
  induction l with
  | nil => simp [lookupSession, hne]
  | cons p rest ih =>
    obtain ⟨pk, pv⟩ := p
    by_cases hpk : pk = sid <;> simp [lookupSession, hpk, ih]

lemma lookupSession_append_self (l : List (Str × Session)) (sid : Str) (v : Session)
    (hnone : lookupSession l sid = none) :
    lookupSession (l ++ [(sid, v)]) sid = some v := by
  induction l with
  | nil => simp [lookupSession]
  | cons p rest ih =>
    obtain ⟨pk, pv⟩ := p
    by_cases hpk : pk = sid
    · rw [lookupSession, if_pos hpk] at hnone
      exact Option.noConfusion hnone
    · rw [lookupSession, if_neg hpk] at hnone
      rw [List.cons_append, lookupSession, if_neg hpk]
      exact ih hnone

lemma lookupSession_setSession_ne (l : List (Str × Session)) (k sid : Str) (v : Session)
    (hne : k ≠ sid) : lookupSession (setSession l k v) sid = lookupSession l sid := by
  induction l with
  | nil => rfl
  | cons p rest ih =>
    obtain ⟨pk, pv⟩ := p
    by_cases hpk : pk = k
    · subst hpk
      rw [setSession, if_pos rfl, lookupSession, if_neg hne, lookupSession, if_neg hne]
    · rw [setSession, if_neg hpk]
      by_cases hps : pk = sid
      · rw [lookupSession, if_pos hps, lookupSession, if_pos hps]
      · rw [lookupSession, if_neg hps, lookupSession, if_neg hps]
        exact ih

/-- A concrete session data record used by the sample runs below. -/
def sampleData : SessionData :=
  { name := some "Bob".data, age_range := some "7-10".data, level := some "beginner".data }

/-- The session after the name was given. -/
def sampleBasic1 : Session :=
  { session_id := "sid".data, stage := "basic_info".data
    data := { name := some "Bob".data, age_range := none, level := none }
    current_question := 0, assessment_answers := [], assessment_results := none
    assessed_level := none }

/-- The session after the age button. -/
def sampleBasic2 : Session :=
  { sampleBasic1 with data := { sampleBasic1.data with age_range := some "7-10".data } }

/-- A reachable session sitting at the `assessment_intro` stage. -/
def sampleIntro : Session :=
  { session_id := "sid".data, stage := "assessment_intro".data, data := sampleData
    current_question := 0, assessment_answers := [], assessment_results := none
    assessed_level := none }

/-- A reachable session sitting at the `assessment_active` stage. -/
def sampleActive : Session := { sampleIntro with stage := "assessment_active".data }

/-- A session with a finished answer sheet (4 of 5 correct). -/
def sampleDone : Session :=
  { sampleActive with
      assessment_answers :=
        [ { question := 0, choice := 2, correct := true }
        , { question := 1, choice := 1, correct := true }
        , { question := 2, choice := 2, correct := true }
        , { question := 3, choice := 2, correct := true }
        , { question := 4, choice := 1, correct := false } ]
      current_question := 5 }

/-- A session sitting at the `recommendations` stage. -/
def sampleRec : Session :=
  { sampleIntro with stage := "recommendations".data, assessed_level := some "beginner".data }

lemma reachable_sampleIntro : Reachable sampleIntro := by
  have h0 : Reachable (newSession "sid".data) := Reachable.init _
  have h1 : Reachable sampleBasic1 :=
    Reachable.step h0
      (show handleMessage (.text "bob".data) (newSession "sid".data) =
        some (sampleBasic1, .basicInfo true true "Bob".data) from by decide)
  have h2 : Reachable sampleBasic2 :=
    Reachable.step h1
      (show handleMessage (.button "age_7-10".data) sampleBasic1 =
        some (sampleBasic2, .basicInfo false true "Bob".data) from by decide)
  exact Reachable.step h2
    (show handleMessage (.button "level_beginner".data) sampleBasic2 =
      some (sampleIntro, .assessmentIntro "Bob".data "beginner".data) from by decide)

lemma reachable_sampleActive : Reachable sampleActive :=
  Reachable.step reachable_sampleIntro
    (show handleMessage (.button "start_assessment".data) sampleIntro =
      some (sampleActive, .question 0 none) from by decide)

/-- C1: for every completed assessment with at least one recorded answer, the
level is assigned from `percentage = int((correct_count / total_answers) * 100)`
(exact for all totals reachable at completion, embedded as floor division) as
advanced when `percentage ≥ 80`, intermediate when `80 > percentage ≥ 60`,
beginner otherwise; the same level is stored in `assessed_level` and, together
with the correct count, total and percentage, in `assessment_results`. -/
theorem C1_level_assignment (s : Session) (h : s.assessment_answers ≠ []) :
    ∃ lvl : Str,
      (completeAssessment s).1.assessed_level = some lvl ∧
      (completeAssessment s).1.assessment_results = some
        { correct := (s.assessment_answers.filter (fun a => a.correct)).length
          total := s.assessment_answers.length
          percentage := 100 * (s.assessment_answers.filter (fun a => a.correct)).length /
            s.assessment_answers.length
          level := lvl } ∧
      (completeAssessment s).2 = Response.results
        ((s.assessment_answers.filter (fun a => a.correct)).length)
        s.assessment_answers.length
        (100 * (s.assessment_answers.filter (fun a => a.correct)).length /
          s.assessment_answers.length) lvl ∧
      (80 ≤ 100 * (s.assessment_answers.filter (fun a => a.correct)).length /
          s.assessment_answers.length → lvl = "advanced".data) ∧
      (60 ≤ 100 * (s.assessment_answers.filter (fun a => a.correct)).length /
          s.assessment_answers.length →
        100 * (s.assessment_answers.filter (fun a => a.correct)).length /
          s.assessment_answers.length < 80 → lvl = "intermediate".data) ∧
      (100 * (s.assessment_answers.filter (fun a => a.correct)).length /
          s.assessment_answers.length < 60 → lvl = "beginner".data) := by
  have htot : 0 < s.assessment_answers.length := List.length_pos.mpr h
  unfold completeAssessment
  dsimp only
  rw [if_pos htot]
  by_cases h80 : 80 ≤ 100 * (s.assessment_answers.filter (fun a => a.correct)).length /
      s.assessment_answers.length
  · rw [if_pos h80]
    exact ⟨"advanced".data, rfl, rfl, rfl, fun _ => rfl,
      fun _ hlt => absurd h80 (by omega), fun hlt => absurd h80 (by omega)⟩
  · rw [if_neg h80]
    by_cases h60 : 60 ≤ 100 * (s.assessment_answers.filter (fun a => a.correct)).length /
        s.assessment_answers.length
    · rw [if_pos h60]
      exact ⟨"intermediate".data, rfl, rfl, rfl, fun hc => absurd hc h80,
        fun _ _ => rfl, fun hlt => absurd h60 (by omega)⟩
    · rw [if_neg h60]
      exact ⟨"beginner".data, rfl, rfl, rfl, fun hc => absurd hc h80,
        fun hc _ => absurd hc h60, fun _ => rfl⟩

theorem C1_witness :
    ∃ lvl : Str, (completeAssessment sampleDone).1.assessed_level = some lvl ∧
      lvl = "advanced".data := by
  obtain ⟨lvl, h1, _, _, h4, _, _⟩ := C1_level_assignment sampleDone (by decide)
  exact ⟨lvl, h1, h4 (by decide)⟩

/-- C2: every reachable session's stored stage is one of the seven named
states; every `handle_message` step moves the stage forward (never backward)
along the specified order; and a session whose stage is `error` is terminal:
it is returned unchanged with the error payload. -/
theorem C2_stage_machine (s : Session) (h : Reachable s) :
    s.stage ∈ validStages ∧
    (∀ inp s2 r, handleMessage inp s = some (s2, r) →
      stageIndex s.stage ≤ stageIndex s2.stage) ∧
    (∀ (t : Session) (inp : Input), t.stage = "error".data →
      handleMessage inp t = some (t, Response.error "Invalid session state".data)) := by
  have hinv := reachable_inv h
  refine ⟨?_, fun inp s2 r hs => (inv_step hinv hs).2,
    fun t inp ht => handleMessage_stage_error inp t ht⟩
  rcases hinv.stage_mem with h1 | h1 | h1 | h1 | h1 <;> rw [h1] <;> decide

theorem C2_witness : sampleActive.stage ∈ validStages :=
  (C2_stage_machine sampleActive reachable_sampleActive).1

/-- C7 counterexample: loading with a missing knowledge file leaves a
non-empty in-memory knowledge base unchanged instead of resetting it to
`[]`, refuting the claim's missing-file case. -/
theorem C7_cex :
    (loadPersistedData { knowledgeFile := .absent, contextFile := .absent }
      { knowledge_base :=
          [{ id := "id1".data, content := "hello".data, metadata := []
             embedding := [], timestamp := "t".data }]
        context_base := [] }).knowledge_base =
      [{ id := "id1".data, content := "hello".data, metadata := []
         embedding := [], timestamp := "t".data }] ∧
    ([{ id := "id1".data, content := "hello".data, metadata := []
        embedding := [], timestamp := "t".data }] : List KBItem) ≠ [] :=
  ⟨rfl, by decide⟩

/-- C7 (amended): save followed by load restores both lists exactly; a file
that exists but fails to load resets its list to `[]` without raising; a
missing file leaves its list unchanged (in the source, load is only called
from `__init__`, where the lists are `[]`). -/
theorem C7_pickle_roundtrip (st st2 : RagState) :
    loadPersistedData (savePersistedData st) st2 = st ∧
    (∀ cf, (loadPersistedData { knowledgeFile := .unreadable, contextFile := cf }
      st).knowledge_base = []) ∧
    (∀ kf, (loadPersistedData { knowledgeFile := kf, contextFile := .unreadable }
      st).context_base = []) ∧
    (∀ cf, (loadPersistedData { knowledgeFile := .absent, contextFile := cf }
      st).knowledge_base = st.knowledge_base) ∧
    (∀ kf, (loadPersistedData { knowledgeFile := kf, contextFile := .absent }
      st).context_base = st.context_base) :=
  ⟨rfl, fun _ => rfl, fun _ => rfl, fun _ => rfl, fun _ => rfl⟩

/-- C8: `add_knowledge` raises `ValueError` exactly when the content is empty
or whitespace-only, leaving the state untouched; otherwise it appends exactly
one item (fresh id, given content, metadata defaulting to the empty dict) to
the knowledge base, persists, and returns that item's id. -/
theorem C8_add_knowledge (st : RagState) (content : Str) (metadata : Option Metadata)
    (doc_id : Str) (embedding : Emb) (ts : Str) :
    ((∃ st0, addKnowledge st content metadata doc_id embedding ts = .valueError st0) ↔
      (content = [] ∨ pyStrip content = [])) ∧
    (∀ st0, addKnowledge st content metadata doc_id embedding ts = .valueError st0 →
      st0 = st) ∧
    (∀ st2 files rid,
      addKnowledge st content metadata doc_id embedding ts = .ok st2 files rid →
      st2.knowledge_base = st.knowledge_base ++
        [{ id := doc_id, content := content, metadata := metadata.getD []
           embedding := embedding, timestamp := ts }] ∧
      st2.context_base = st.context_base ∧
      rid = doc_id ∧ files = savePersistedData st2) := by
  unfold addKnowledge
  by_cases hc : content = [] ∨ pyStrip content = []
  · rw [if_pos hc]
    refine ⟨⟨fun _ => hc, fun _ => ⟨st, rfl⟩⟩, ?_, ?_⟩
    · intro st0 heq
      injection heq with h1
      exact h1.symm
    · intro st2 files rid heq
      exact AddResult.noConfusion heq
  · rw [if_neg hc]
    refine ⟨⟨?_, fun hcc => absurd hcc hc⟩, ?_, ?_⟩
    · intro hex
      obtain ⟨st0, heq⟩ := hex
      exact AddResult.noConfusion heq
    · intro st0 heq
      exact AddResult.noConfusion heq
    · intro st2 files rid heq
      injection heq with h1 h2 h3
      subst h1
      subst h2
      subst h3
      exact ⟨rfl, rfl, rfl, rfl⟩

theorem C8_witness :
    ∃ st0, addKnowledge { knowledge_base := [], context_base := [] } []
      none "d".data [] "t".data = .valueError st0 :=
  (C8_add_knowledge { knowledge_base := [], context_base := [] } []
    none "d".data [] "t".data).1.mpr (Or.inl rfl)

/-- C10: the recommendations stage is absorbing: every `handle_message` call
on a session whose stage is `recommendations`, with any input (including the
`start_new_consultation` button), returns the recommendations payload and
leaves the session unchanged. -/
theorem C10_recommendations_absorbing (s : Session)
    (hst : s.stage = "recommendations".data) (inp : Input) :
    handleMessage inp s = some (s, createRecommendationsResponse s) ∧
    createRecommendationsResponse s = Response.recommendations
      (s.data.name.getD "there".data)
      (s.assessed_level.getD (s.data.level.getD "intermediate".data))
      (generateCourseRecommendations s) :=
  ⟨handleMessage_stage_rec inp s hst, rfl⟩

theorem C10_witness :
    handleMessage (.button "start_new_consultation".data) sampleRec =
      some (sampleRec, createRecommendationsResponse sampleRec) :=
  (C10_recommendations_absorbing sampleRec rfl (.button "start_new_consultation".data)).1

/-- C4 counterexample: at `assessment_intro`, the reachable session
`sampleIntro` receives the text `"yes, skip"`, which contains `skip`, yet the
session moves to `assessment_active` (the start-words are checked first and
`yes` wins), not to `recommendations` — refuting the claim for text inputs
containing a skip-word. -/
theorem C4_cex :
    Reachable sampleIntro ∧
    sampleIntro.stage = "assessment_intro".data ∧
    containsSub "skip".data (lowerStr "yes, skip".data) = true ∧
    (handleMessage (.text "yes, skip".data) sampleIntro).map (fun p => p.1.stage) =
      some "assessment_active".data ∧
    ("assessment_active".data : Str) ≠ "recommendations".data :=
  ⟨reachable_sampleIntro, rfl, by decide, by decide, by decide⟩

/-- C4 (amended): at `assessment_intro`, a `skip_assessment` button click
always moves the session directly to `recommendations` with `assessed_level`
set to the stated level (or `intermediate` when none was stated); a text
input containing `skip`, `no` or `later` does the same provided it contains
none of `start`, `begin`, `yes`, `ready`, which are checked first and start
the assessment instead. -/
theorem C4_skip_assessment (s : Session) (hst : s.stage = "assessment_intro".data) :
    (handleMessage (.button "skip_assessment".data) s =
      some ({ s with stage := "recommendations".data
                     assessed_level := some (s.data.level.getD "intermediate".data) },
        createRecommendationsResponse
          { s with stage := "recommendations".data
                   assessed_level := some (s.data.level.getD "intermediate".data) })) ∧
    (∀ t, (containsSub "skip".data (lowerStr t) || containsSub "no".data (lowerStr t) ||
           containsSub "later".data (lowerStr t)) = true →
      (containsSub "start".data (lowerStr t) || containsSub "begin".data (lowerStr t) ||
       containsSub "yes".data (lowerStr t) || containsSub "ready".data (lowerStr t)) = false →
      handleMessage (.text t) s =
        some ({ s with stage := "recommendations".data
                       assessed_level := some (s.data.level.getD "intermediate".data) },
          createRecommendationsResponse
            { s with stage := "recommendations".data
                     assessed_level := some (s.data.level.getD "intermediate".data) })) := by
  constructor
  · rw [handleMessage_stage_intro _ _ hst]
    unfold handleAssessmentIntro
    dsimp only
    rw [if_neg (show ¬(("skip_assessment".data : Str) = "start_assessment".data)
      from by decide)]
    rw [if_pos rfl]
    rfl
  · intro t hskip hstart
    rw [handleMessage_stage_intro _ _ hst]
    unfold handleAssessmentIntro assessmentIntroFallback
    dsimp only
    have h1 : ¬((containsSub "start".data (lowerStr t) ||
        containsSub "begin".data (lowerStr t) || containsSub "yes".data (lowerStr t) ||
        containsSub "ready".data (lowerStr t)) = true) := by
      rw [hstart]
      decide
    rw [if_neg h1, if_pos hskip]
    rfl

theorem C4_witness :
    handleMessage (.button "skip_assessment".data) sampleIntro =
      some ({ sampleIntro with
                stage := "recommendations".data
                assessed_level := some (sampleIntro.data.level.getD "intermediate".data) },
        createRecommendationsResponse
          { sampleIntro with
              stage := "recommendations".data
              assessed_level := some (sampleIntro.data.level.getD "intermediate".data) }) :=
  (C4_skip_assessment sampleIntro rfl).1

/-- C5 counterexample: at `assessment_active`, the reachable session
`sampleActive` receives the `button_click` payload `answer_x`, which matches
no `answer_N` identifier and contains no digit `1`, `2` or `3`; instead of
leaving the session unchanged and re-presenting the question, the call raises
an uncaught `ValueError` from `int("x")` (modelled as `none`). -/
theorem C5_cex :
    Reachable sampleActive ∧
    sampleActive.stage = "assessment_active".data ∧
    extractChoiceFromText "answer_x".data = none ∧
    handleMessage (.button "answer_x".data) sampleActive = none :=
  ⟨reachable_sampleActive, rfl, by decide, by decide⟩

/-- C5 (amended): at `assessment_active` on a reachable session, an input
that matches neither pattern leaves the session entirely unchanged and
re-presents the current question with the error prompt, and a matching input
records exactly one answer and advances `current_question` by exactly one —
except a `button_click` whose payload starts with `answer_` but whose
remainder is not an integer, which raises an uncaught `ValueError`. -/
theorem C5_answer_validation (s : Session) (h : Reachable s)
    (hst : s.stage = "assessment_active".data) :
    (∀ t, extractChoiceFromText t = none →
      handleMessage (.text t) s =
        some (s, .question s.current_question (some answerPrompt))) ∧
    (∀ b, ("answer_".data).isPrefixOf b = false → extractChoiceFromText b = none →
      handleMessage (.button b) s =
        some (s, .question s.current_question (some answerPrompt))) ∧
    (∀ t c, extractChoiceFromText t = some c →
      ∃ s2 r, handleMessage (.text t) s = some (s2, r) ∧
        (∃ a, s2.assessment_answers = s.assessment_answers ++ [a]) ∧
        s2.current_question = s.current_question + 1) ∧
    (∀ b c, ("answer_".data).isPrefixOf b = true →
      pyInt (pyReplace "answer_".data [] b) = some c →
      ∃ s2 r, handleMessage (.button b) s = some (s2, r) ∧
        (∃ a, s2.assessment_answers = s.assessment_answers ++ [a]) ∧
        s2.current_question = s.current_question + 1) ∧
    (∀ b, ("answer_".data).isPrefixOf b = true →
      pyInt (pyReplace "answer_".data [] b) = none →
      handleMessage (.button b) s = none) := by
  have hinv := reachable_inv h
  have hlt := hinv.active_lt hst
  have hre : ∀ t, extractChoiceFromText t = none →
      assessmentTextAnswer t s =
        some (s, .question s.current_question (some answerPrompt)) := by
    intro t hX
    unfold assessmentTextAnswer
    rw [hX]
    dsimp only
    unfold getAssessmentQuestion
    rw [if_neg (show ¬(ASSESSMENT_QUESTIONS.length ≤ s.current_question) from by omega)]
  have hpr : ∀ c, ∃ s2 r, processAssessmentAnswer c s = some (s2, r) ∧
      (∃ a, s2.assessment_answers = s.assessment_answers ++ [a]) ∧
      s2.current_question = s.current_question + 1 := by
    intro c
    obtain ⟨s2, r, heq, _, hcq, hans, _, _⟩ := processAnswer_spec c hinv hst
    exact ⟨s2, r, heq, hans, hcq⟩
  refine ⟨?_, ?_, ?_, ?_, ?_⟩
  · intro t hX
    rw [handleMessage_stage_active _ _ hst]
    unfold handleAssessmentQuestion
    exact hre t hX
  · intro b hb hX
    rw [handleMessage_stage_active _ _ hst]
    unfold handleAssessmentQuestion
    dsimp only
    rw [if_neg (show ¬(("answer_".data).isPrefixOf b = true) from by rw [hb]; decide)]
    exact hre b hX
  · intro t c hX
    rw [handleMessage_stage_active _ _ hst]
    unfold handleAssessmentQuestion
    dsimp only
    unfold assessmentTextAnswer
    rw [hX]
    dsimp only
    exact hpr c
  · intro b c hb hparse
    rw [handleMessage_stage_active _ _ hst]
    unfold handleAssessmentQuestion
    dsimp only
    rw [if_pos hb, hparse]
    exact hpr c
  · intro b hb hparse
    rw [handleMessage_stage_active _ _ hst]
    unfold handleAssessmentQuestion
    dsimp only
    rw [if_pos hb, hparse]

theorem C5_witness :
    handleMessage (.text "hello".data) sampleActive =
      some (sampleActive, .question sampleActive.current_question (some answerPrompt)) :=
  (C5_answer_validation sampleActive reachable_sampleActive rfl).1 "hello".data (by decide)

lemma active_step_cases {inp : Input} {s s2 : Session} {r : Response} (hinv : Inv s)
    (hst : s.stage = "assessment_active".data)
    (hs : handleAssessmentQuestion inp s = some (s2, r)) :
    s2 = s ∨ ∃ c, processAssessmentAnswer c s = some (s2, r) := by
  have hlt := hinv.active_lt hst
  have htext : ∀ t, assessmentTextAnswer t s = some (s2, r) →
      s2 = s ∨ ∃ c, processAssessmentAnswer c s = some (s2, r) := by
    intro t ht
    unfold assessmentTextAnswer at ht
    cases hX : extractChoiceFromText t with
    | some c =>
      rw [hX] at ht
      exact Or.inr ⟨c, ht⟩
    | none =>
      rw [hX] at ht
      dsimp only at ht
      unfold getAssessmentQuestion at ht
      rw [if_neg (show ¬(ASSESSMENT_QUESTIONS.length ≤ s.current_question) from by omega)]
        at ht
      injection ht with hpair
      injection hpair with h1 h2
      exact Or.inl h1.symm
  unfold handleAssessmentQuestion at hs
  cases inp with
  | text t => exact htext t hs
  | formSubmit raw parsed => exact htext raw hs
  | otherAction a t => exact htext t hs
  | button b =>
    dsimp only at hs
    by_cases hpre : ("answer_".data).isPrefixOf b = true
    · rw [if_pos hpre] at hs
      cases hparse : pyInt (pyReplace "answer_".data [] b) with
      | none =>
        rw [hparse] at hs
        exact Option.noConfusion hs
      | some c =>
        rw [hparse] at hs
        exact Or.inr ⟨c, hs⟩
    · rw [if_neg hpre] at hs
      exact htext b hs

/-- C9: on every reachable session the number of recorded answers equals
`current_question`, which never exceeds the number of configured questions;
each recorded answer stores `correct = (choice == correct_answer)` of the
question at its index; and a step that records an answer completes the
assessment (stage `recommendations` with results set) exactly when
`current_question` reaches the number of questions. -/
theorem C9_assessment_invariants (s : Session) (h : Reachable s) :
    s.assessment_answers.length = s.current_question ∧
    s.current_question ≤ ASSESSMENT_QUESTIONS.length ∧
    AnswersOK s.assessment_answers ∧
    (∀ inp s2 r, handleMessage inp s = some (s2, r) →
      s.stage = "assessment_active".data →
      s2.current_question = s.current_question + 1 →
      ((s2.stage = "recommendations".data ∧ s2.assessment_results.isSome) ↔
        s2.current_question = ASSESSMENT_QUESTIONS.length)) := by
  have hinv := reachable_inv h
  refine ⟨hinv.len_eq, hinv.cq_le, hinv.answers_ok, ?_⟩
  intro inp s2 r hs hst hinc
  rw [handleMessage_stage_active _ _ hst] at hs
  rcases active_step_cases hinv hst hs with rfl | ⟨c, hc⟩
  · exact absurd hinc (by omega)
  · obtain ⟨s2x, rx, heq, _, hcq2, _, _, hiff⟩ := processAnswer_spec c hinv hst
    rw [heq] at hc
    injection hc with hpair
    injection hpair with h1 h2
    subst h1
    exact hiff

theorem C9_witness :
    sampleActive.assessment_answers.length = sampleActive.current_question :=
  (C9_assessment_invariants sampleActive reachable_sampleActive).1

lemma relevanceLe_trans : ∀ a b c : SearchResult,
    decide (b.relevance ≤ a.relevance) = true → decide (c.relevance ≤ b.relevance) = true →
    decide (c.relevance ≤ a.relevance) = true := by
  intro a b c h1 h2
  rw [decide_eq_true_eq] at h1 h2 ⊢
  exact le_trans h2 h1

lemma relevanceLe_total : ∀ a b : SearchResult,
    (decide (b.relevance ≤ a.relevance) || decide (a.relevance ≤ b.relevance)) = true := by
  intro a b
  rcases le_total a.relevance b.relevance with h | h <;> simp [h]

/-- C3: `search_knowledge_base` returns `[]` on an empty knowledge base or
when no item passes the metadata filters; otherwise it scores every filtered
item with the similarity of the query embedding (the linear scan), and
returns at most `limit` results sorted by descending relevance, each carrying
the item's content, metadata and id. The similarity function `sim` abstracts
the floating-point sklearn cosine similarity. -/
theorem C3_search (sim : Emb → Emb → ℚ) (kb : List KBItem) (q : Emb) (limit : Nat)
    (filters : Option (List (Str × FilterVal))) :
    (kb = [] → searchKnowledgeBase sim kb q limit filters = []) ∧
    (applyFilters kb filters = [] → searchKnowledgeBase sim kb q limit filters = []) ∧
    (searchKnowledgeBase sim kb q limit filters).length ≤ limit ∧
    (kb ≠ [] → applyFilters kb filters ≠ [] →
      ∃ sorted : List SearchResult,
        sorted.Perm ((applyFilters kb filters).map (fun it =>
          { content := it.content, metadata := it.metadata
            relevance := sim q it.embedding, id := it.id })) ∧
        sorted.Pairwise (fun a b => b.relevance ≤ a.relevance) ∧
        searchKnowledgeBase sim kb q limit filters = sorted.take limit) ∧
    (∀ res ∈ searchKnowledgeBase sim kb q limit filters,
      ∃ it ∈ applyFilters kb filters,
        res.content = it.content ∧ res.metadata = it.metadata ∧
        res.id = it.id ∧ res.relevance = sim q it.embedding) := by
  by_cases hkb : kb = []
  · have hE : searchKnowledgeBase sim kb q limit filters = [] := by
      unfold searchKnowledgeBase
      rw [if_pos hkb]
    refine ⟨fun _ => hE, fun _ => hE, by rw [hE]; exact Nat.zero_le _,
      fun hne _ => absurd hkb hne, ?_⟩
    intro res hres
    rw [hE] at hres
    exact absurd hres (List.not_mem_nil res)
  · by_cases hfil : applyFilters kb filters = []
    · have hE : searchKnowledgeBase sim kb q limit filters = [] := by
        unfold searchKnowledgeBase
        rw [if_neg hkb]
        dsimp only
        rw [if_pos hfil]
      refine ⟨fun h => absurd h hkb, fun _ => hE, by rw [hE]; exact Nat.zero_le _,
        fun _ hne => absurd hfil hne, ?_⟩
      intro res hres
      rw [hE] at hres
      exact absurd hres (List.not_mem_nil res)
    · have hEq : searchKnowledgeBase sim kb q limit filters =
          (((applyFilters kb filters).map (fun it =>
            { content := it.content, metadata := it.metadata
              relevance := sim q it.embedding, id := it.id })).mergeSort
            (fun a b => decide (b.relevance ≤ a.relevance))).take limit := by
        unfold searchKnowledgeBase
        rw [if_neg hkb]
        dsimp only
        rw [if_neg hfil]
      refine ⟨fun h => absurd h hkb, fun h => absurd h hfil, ?_, fun _ _ => ?_, ?_⟩
      · rw [hEq, List.length_take]
        exact min_le_left _ _
      · refine ⟨((applyFilters kb filters).map (fun it =>
            { content := it.content, metadata := it.metadata
              relevance := sim q it.embedding, id := it.id })).mergeSort
            (fun a b => decide (b.relevance ≤ a.relevance)), ?_, ?_, hEq⟩
        · exact List.mergeSort_perm _ _
        · have hp := List.sorted_mergeSort relevanceLe_trans relevanceLe_total
            ((applyFilters kb filters).map (fun it =>
              { content := it.content, metadata := it.metadata
                relevance := sim q it.embedding, id := it.id }))
          exact hp.imp (fun h => of_decide_eq_true h)
      · intro res hres
        rw [hEq] at hres
        have h1 := List.take_subset _ _ hres
        have h2 := (List.mergeSort_perm _ _).mem_iff.mp h1
        obtain ⟨it, hit, heq2⟩ := List.mem_map.mp h2
        exact ⟨it, hit, by rw [← heq2], by rw [← heq2], by rw [← heq2], by rw [← heq2]⟩

theorem C3_witness :
    searchKnowledgeBase (fun _ _ => 0) [] [] 5 none = [] :=
  (C3_search (fun _ _ => 0) [] [] 5 none).1 rfl

/-- C6: sessions are isolated in the in-process map: `get_or_create_session`
returns the stored session when the id exists, inserts a fresh `welcome`
session otherwise, and is idempotent; a `handle_message` call for one session
id never changes the session stored under any other id. -/
theorem C6_session_isolation :
    (∀ (e : Engine) (sid : Str) (s : Session),
      lookupSession e.sessions sid = some s → getOrCreateSession e sid = (e, s)) ∧
    (∀ (e : Engine) (sid : Str), lookupSession e.sessions sid = none →
      (getOrCreateSession e sid).2 = newSession sid ∧
      (newSession sid).stage = "welcome".data ∧
      lookupSession (getOrCreateSession e sid).1.sessions sid = some (newSession sid)) ∧
    (∀ (e : Engine) (sid : Str),
      getOrCreateSession (getOrCreateSession e sid).1 sid =
        ((getOrCreateSession e sid).1, (getOrCreateSession e sid).2)) ∧
    (∀ (e : Engine) (sid1 sid2 : Str) (inp : Input), sid1 ≠ sid2 →
      lookupSession (engineHandleMessage e sid1 inp).1.sessions sid2 =
        lookupSession e.sessions sid2) := by
  refine ⟨?_, ?_, ?_, ?_⟩
  · intro e sid s hl
    unfold getOrCreateSession
    rw [hl]
  · intro e sid hl
    unfold getOrCreateSession
    rw [hl]
    exact ⟨rfl, rfl, lookupSession_append_self e.sessions sid _ hl⟩
  · intro e sid
    cases hl : lookupSession e.sessions sid with
    | some s =>
      have h1 : getOrCreateSession e sid = (e, s) := by
        unfold getOrCreateSession
        rw [hl]
      rw [h1]
      exact h1
    | none =>
      have h1 : getOrCreateSession e sid =
          (⟨e.sessions ++ [(sid, newSession sid)]⟩, newSession sid) := by
        unfold getOrCreateSession
        rw [hl]
      rw [h1]
      show getOrCreateSession ⟨e.sessions ++ [(sid, newSession sid)]⟩ sid = _
      unfold getOrCreateSession
      rw [lookupSession_append_self e.sessions sid _ hl]
  · intro e sid1 sid2 inp hne
    unfold engineHandleMessage
    cases hl : lookupSession e.sessions sid1 with
    | some s =>
      have h1 : getOrCreateSession e sid1 = (e, s) := by
        unfold getOrCreateSession
        rw [hl]
      rw [h1]
      dsimp only
      cases hm : handleMessage inp s with
      | some p =>
        obtain ⟨s2, r⟩ := p
        dsimp only
        rw [lookupSession_setSession_ne _ _ _ _ hne]
      | none => rfl
    | none =>
      have h1 : getOrCreateSession e sid1 =
          (⟨e.sessions ++ [(sid1, newSession sid1)]⟩, newSession sid1) := by
        unfold getOrCreateSession
        rw [hl]
      rw [h1]
      dsimp only
      cases hm : handleMessage inp (newSession sid1) with
      | some p =>
        obtain ⟨s2, r⟩ := p
        dsimp only
        rw [lookupSession_setSession_ne _ _ _ _ hne]
        exact lookupSession_append_ne _ _ _ _ hne
      | none =>
        exact lookupSession_append_ne _ _ _ _ hne

theorem C6_witness :
    lookupSession (engineHandleMessage ⟨[]⟩ "a".data (.text "hi".data)).1.sessions
      "b".data = lookupSession (Engine.mk []).sessions "b".data :=
  C6_session_isolation.2.2.2 ⟨[]⟩ "a".data "b".data (.text "hi".data) (by decide)

end ConsultationAgent
